import Mathlib

/-!
Verification of the rusty-nes 6502 CPU core.

Shallow embedding of `src/cpu/memory.rs`, `src/cpu/base.rs`,
`src/cpu/addressing.rs`, `src/cpu/opcodes.rs` and `src/cpu/mod.rs`
(`reset`).  Machine bytes are modelled as `Nat` with explicit `% 256`
and masking where the Rust `u8` arithmetic wraps or truncates; the
64KB RAM is a function from addresses to cells; handlers are pure
state transformers mirroring the builder-style mutation chains of the
source, statement by statement.
-/

/-! ### Memory (src/cpu/memory.rs) -/

def MEMORY_MAX : Nat := 0x10000
def RAM_TOP : Nat := 0x800
def MIRROR_TOP : Nat := 0x2000
def ZERO_PAGE_TOP : Nat := 0x100
def RESET_VECTOR : Nat := 0xFFFC

structure Memory where
  ram : Nat → Nat

/-- `Memory::new`: zero-initialised RAM. -/
def Memory.new : Memory := ⟨fun _ => 0⟩

/-- `Memory::write`: stores at the literal address only (no mirroring). -/
def Memory.write (m : Memory) (address value : Nat) : Memory :=
  ⟨fun a => if a = address then value else m.ram a⟩

/-- `Memory::read`: addresses below `MIRROR_TOP` are mirrored into the
low 2KB window via `% RAM_TOP`. -/
def Memory.read (m : Memory) (address : Nat) : Nat :=
  if address < MIRROR_TOP then m.ram (address % RAM_TOP) else m.ram address

/-! ### Flags and state (src/cpu/base.rs) -/

def N_FLAG : Nat := 0b10000000
def V_FLAG : Nat := 0b01000000
def B_FLAG : Nat := 0b00010000
def F_FLAG : Nat := 0b00100000
def D_FLAG : Nat := 0b00001000
def I_FLAG : Nat := 0b00000100
def Z_FLAG : Nat := 0b00000010
def C_FLAG : Nat := 0b00000001
def SIGN_BIT : Nat := 0b10000000

structure State where
  a : Nat
  sp : Nat
  pc : Nat
  x : Nat
  y : Nat
  status : Nat

structure Processor where
  mem : Memory
  state : State
  cycles : Nat

/-- `Processor::new(None)`: all registers zero, fresh memory.  Note the
stack pointer starts at 0, not 0xFF. -/
def Processor.new : Processor :=
  { mem := Memory.new
    state := { a := 0, sp := 0, pc := 0, x := 0, y := 0, status := 0 }
    cycles := 0 }

def Processor.stack_top (p : Processor) : Nat :=
  ZERO_PAGE_TOP + p.state.sp

/-- `stack_push`: write at `stack_top`, then decrement SP with 8-bit
wraparound (`0x00 -> 0xFF`). -/
def Processor.stack_push (p : Processor) (value : Nat) : Processor :=
  let p1 := { p with mem := p.mem.write p.stack_top value }
  { p1 with state := { p1.state with
      sp := if p1.state.sp = 0 then 0xff else p1.state.sp - 1 } }

/-- `stack_pop`: increment SP with wraparound (`0xFF -> 0x00`) first,
then read at the new `stack_top`. -/
def Processor.stack_pop (p : Processor) : Processor × Nat :=
  let sp1 := if p.state.sp = 0xff then 0 else p.state.sp + 1
  let p1 := { p with state := { p.state with sp := sp1 } }
  (p1, p1.mem.read p1.stack_top)

/-- `update_pc`: the source takes an `i32` delta but every modelled call
site passes a positive literal (`opcode_len` is 1..3, `rts` passes 1),
so the delta is a `Nat` here. -/
def Processor.update_pc (p : Processor) (delta : Nat) : Processor :=
  { p with state := { p.state with pc := p.state.pc + delta } }

def Processor.jump (p : Processor) (new_pc : Nat) : Processor :=
  { p with state := { p.state with pc := new_pc } }

def Processor.update_cycles (p : Processor) (cycles : Nat) : Processor :=
  { p with cycles := p.cycles + cycles }

def Processor.set_carry (p : Processor) (toggle : Bool) : Processor :=
  if toggle then
    { p with state := { p.state with status := p.state.status ||| C_FLAG } }
  else
    { p with state := { p.state with status := p.state.status &&& (0xFF ^^^ C_FLAG) } }

def Processor.set_z (p : Processor) (toggle : Bool) : Processor :=
  if toggle then
    { p with state := { p.state with status := p.state.status ||| Z_FLAG } }
  else
    { p with state := { p.state with status := p.state.status &&& (0xFF ^^^ Z_FLAG) } }

def Processor.set_n (p : Processor) (toggle : Bool) : Processor :=
  if toggle then
    { p with state := { p.state with status := p.state.status ||| N_FLAG } }
  else
    { p with state := { p.state with status := p.state.status &&& (0xFF ^^^ N_FLAG) } }

/-- `update_v`: `if !(lhs ^ rhs) & (lhs ^ result) & SIGN_BIT != 0` — the
`u8` complement `!x` is `x ^^^ 0xFF`. -/
def Processor.update_v (p : Processor) (lhs rhs result : Nat) : Processor :=
  if ((lhs ^^^ rhs) ^^^ 0xFF) &&& (lhs ^^^ result) &&& SIGN_BIT ≠ 0 then
    { p with state := { p.state with status := p.state.status ||| V_FLAG } }
  else
    { p with state := { p.state with status := p.state.status &&& (0xFF ^^^ V_FLAG) } }

/-- `Processor::reset` (src/cpu/mod.rs): loads PC little-endian from the
reset vector.  No other field is touched. -/
def Processor.reset (p : Processor) : Processor :=
  let lower := p.mem.read RESET_VECTOR
  let upper := p.mem.read (RESET_VECTOR + 1)
  { p with state := { p.state with pc := lower ||| (upper <<< 8) } }

/-! ### Addressing modes (src/cpu/addressing.rs) -/

inductive Mode where
  | zeroPage
  | absolute
  | accumulator
  | immediate
  | implied
  | indirect
  | indexedY
  | indexedX
  | zeroPageX
  | zeroPageY
  | absoluteX
  | absoluteY
  | relative
deriving DecidableEq, Repr

/-- `Processor::lookup`: resolves an effective address for a mode,
charging cycles (including page-crossing penalties) on the way.  The
`u8 + u8` sums feeding zero-page and pre-indexed resolution wrap via
`% 256` (release-mode Rust semantics); `Relative` reads the operand as
a signed byte. -/
def Processor.lookup (p : Processor) (mode : Mode) : Processor × Nat :=
  match mode with
  | .accumulator => (p, p.state.a)
  | .absolute =>
    let p := p.update_cycles 2
    let high := p.mem.read (p.state.pc + 1)
    let low := p.mem.read (p.state.pc + 2)
    (p, low ||| (high <<< 8))
  | .absoluteX =>
    let p := p.update_cycles 2
    let carry := p.state.status &&& 1
    let high := p.mem.read (p.state.pc + 1)
    let low := p.mem.read (p.state.pc + 2)
    let address := (low ||| (high <<< 8)) + carry + p.state.x
    let p := if address >>> 8 > high then p.update_cycles 1 else p
    (p, address)
  | .absoluteY =>
    let p := p.update_cycles 2
    let carry := p.state.status &&& 1
    let high := p.mem.read (p.state.pc + 1)
    let low := p.mem.read (p.state.pc + 2)
    let address := (low ||| (high <<< 8)) + carry + p.state.y
    let p := if address >>> 8 > high then p.update_cycles 1 else p
    (p, address)
  | .immediate => (p, p.state.pc + 1)
  | .implied => (p.update_cycles 1, 0)
  | .indirect =>
    let p := p.update_cycles 5
    let high := p.mem.read (p.state.pc + 1)
    let low := p.mem.read (p.state.pc + 2)
    (p, p.mem.read (low ||| (high <<< 8)))
  | .indexedX =>
    let p := p.update_cycles 4
    let base_index := (p.mem.read (p.state.pc + 1) + p.state.x) % 256
    let high := p.mem.read base_index
    let low := p.mem.read (base_index + 1)
    (p, low ||| (high <<< 8))
  | .indexedY =>
    let p := p.update_cycles 3
    let carry := p.state.status &&& 1
    let base_index := p.mem.read (p.state.pc + 1)
    let high := p.mem.read base_index
    let low := p.mem.read (base_index + 1)
    let address := (low ||| (high <<< 8)) + carry + p.state.y
    let p := if address >>> 8 > high then p.update_cycles 1 else p
    (p, address)
  | .relative =>
    let p := p.update_cycles 1
    let offset := p.mem.read (p.state.pc + 1)
    let address :=
      if offset < 128 then p.state.pc + offset
      else p.state.pc - (256 - offset)
    let p := if address >>> 8 > p.state.pc >>> 8 then p.update_cycles 1 else p
    (p, address)
  | .zeroPage =>
    let p := p.update_cycles 1
    (p, p.mem.read (p.state.pc + 1))
  | .zeroPageX =>
    let p := p.update_cycles 2
    (p, 0xFF &&& ((p.mem.read (p.state.pc + 1) + p.state.x) % 256))
  | .zeroPageY =>
    let p := p.update_cycles 2
    (p, 0xFF &&& ((p.mem.read (p.state.pc + 1) + p.state.y) % 256))

/-- `opcode_len`: instruction byte length per addressing mode. -/
def opcode_len (mode : Mode) : Nat :=
  match mode with
  | .absolute | .absoluteX | .absoluteY | .indirect => 3
  | .zeroPage | .zeroPageX | .zeroPageY | .indexedX | .indexedY
  | .relative | .immediate => 2
  | _ => 1

/-! ### Decoder (src/cpu/opcodes.rs, `Processor::decode`)

The Rust decoder returns a function pointer; the embedding names each
handler with a tag.  Arms that `panic!` in the source are modelled as
`none`. -/

inductive Instr where
  | brk | jsr | rti | rts | ldy | cpy | cpx | bit | sty | php | plp
  | pha | pla | dey | tay | iny | inx | jmp | bpl | bmi | bvc | bvs
  | bcc | bcs | bne | beq | clc | sec | cli | sei | tya | clv | cld
  | sed | ora | and | eor | adc | sta | lda | cmp | sbc | jam | txa
  | tax | dex | ldx | nop | asl | rol | lsr | ror | stx | dec | inc
  | txs | tsx | dcp
deriving DecidableEq, Repr

def decode (value : Nat) : Option (Instr × Mode) :=
  let a := (value &&& 0b11100000) >>> 5
  let b := (value &&& 0b00011100) >>> 2
  let c := value &&& 0b00000011
  match c, b, a with
  | 0, 0, 0 => some (.brk, .implied)
  | 0, 0, 1 => some (.jsr, .absolute)
  | 0, 0, 2 => some (.rti, .implied)
  | 0, 0, 3 => some (.rts, .implied)
  | 0, 0, 5 => some (.ldy, .immediate)
  | 0, 0, 6 => some (.cpy, .immediate)
  | 0, 0, 7 => some (.cpx, .immediate)
  | 0, 1, a =>
    match a with
    | 1 => some (.bit, .zeroPage)
    | 4 => some (.sty, .zeroPage)
    | 5 => some (.ldy, .zeroPage)
    | 6 => some (.cpy, .zeroPage)
    | 7 => some (.cpx, .zeroPage)
    | _ => none
  | 0, 2, a =>
    match a with
    | 0 => some (.php, .implied)
    | 1 => some (.plp, .implied)
    | 2 => some (.pha, .implied)
    | 3 => some (.pla, .implied)
    | 4 => some (.dey, .implied)
    | 5 => some (.tay, .implied)
    | 6 => some (.iny, .implied)
    | 7 => some (.inx, .implied)
    | _ => none
  | 0, 3, a =>
    let instruction : Option Instr :=
      match a with
      | 1 => some .bit
      | 2 => some .jmp
      | 3 => some .jmp
      | 4 => some .sty
      | 5 => some .ldy
      | 6 => some .cpy
      | 7 => some .cpx
      | _ => none
    let mode : Mode := if a = 3 then .indirect else .absolute
    match instruction with
    | some i => some (i, mode)
    | none => none
  | 0, 4, a =>
    match a with
    | 0 => some (.bpl, .relative)
    | 1 => some (.bmi, .relative)
    | 2 => some (.bvc, .relative)
    | 3 => some (.bvs, .relative)
    | 4 => some (.bcc, .relative)
    | 5 => some (.bcs, .relative)
    | 6 => some (.bne, .relative)
    | 7 => some (.beq, .relative)
    | _ => none
  | 0, 5, 4 => some (.sty, .zeroPage)
  | 0, 5, 5 => some (.ldy, .zeroPage)
  | 0, 6, a =>
    match a with
    | 0 => some (.clc, .implied)
    | 1 => some (.sec, .implied)
    | 2 => some (.cli, .implied)
    | 3 => some (.sei, .implied)
    | 4 => some (.tya, .implied)
    | 5 => some (.clv, .implied)
    | 6 => some (.cld, .implied)
    | 7 => some (.sed, .implied)
    | _ => none
  | 1, b, a =>
    let mode : Option Mode :=
      match b with
      | 0 => some .indirect
      | 1 => some .zeroPage
      | 2 => some .immediate
      | 3 => some .absolute
      | 4 => some .indirect
      | 5 => some .zeroPageX
      | 6 => some .absoluteX
      | 7 => some .absoluteY
      | _ => none
    let instruction : Instr :=
      match a with
      | 0 => .ora
      | 1 => .and
      | 2 => .eor
      | 3 => .adc
      | 4 => .sta
      | 5 => .lda
      | 6 => .cmp
      | 7 => .sbc
      | _ => .jam
    match mode with
    | some m => some (instruction, m)
    | none => none
  | 2, 0, 0 => some (.jam, .implied)
  | 2, 0, 1 => some (.jam, .implied)
  | 2, 0, 2 => some (.jam, .implied)
  | 2, 0, 3 => some (.jam, .implied)
  | 2, 2, 4 => some (.txa, .implied)
  | 2, 2, 5 => some (.tax, .implied)
  | 2, 2, 6 => some (.dex, .implied)
  | 2, b, a =>
    if a = 5 ∧ b = 0 then some (.ldx, .immediate)
    else if b = 2 ∧ a = 7 then some (.nop, .implied)
    else if b = 6 then
      match a with
      | 4 => some (.txs, .implied)
      | 5 => some (.tsx, .implied)
      | _ => none
    else
      let instruction : Option Instr :=
        match a with
        | 0 => some .asl
        | 1 => some .rol
        | 2 => some .lsr
        | 3 => some .ror
        | 4 => some .stx
        | 5 => some .ldx
        | 6 => some .dec
        | 7 => some .inc
        | _ => none
      let mode : Option Mode :=
        match b with
        | 1 => some .zeroPage
        | 2 => some .implied
        | 3 => some .absolute
        | 5 => some .zeroPageX
        | 7 => some .absoluteX
        | _ => none
      match instruction, mode with
      | some i, some m => some (i, m)
      | _, _ => none
  | 3, b, 6 =>
    let mode : Option Mode :=
      match b with
      | 0 => some .indexedX
      | 1 => some .zeroPage
      | 3 => some .absolute
      | 4 => some .indexedY
      | 5 => some .zeroPageX
      | 6 => some .absoluteY
      | 7 => some .absoluteX
      | _ => none
    match mode with
    | some m => some (.dcp, m)
    | none => none
  | _, _, _ => some (.jam, .implied)

/-! ### Instruction handlers (src/cpu/opcodes.rs) -/

def Processor.set_a (p : Processor) (value : Nat) : Processor :=
  { p with state := { p.state with a := value } }

/-- `Processor::adc`: result via two chained 8-bit overflowing adds,
carry = OR of both carry-outs, then flag updates, `A`, PC and cycles in
source order. -/
def Processor.adc (p : Processor) (mode : Mode) : Processor :=
  let r := p.lookup mode
  let p := r.1
  let operand := p.mem.read r.2
  let lhs := p.state.a
  let r1 := (lhs + operand) % 256
  let c1 := decide (256 ≤ lhs + operand)
  let carry_in := p.state.status &&& 1
  let result := (r1 + carry_in) % 256
  let c2 := decide (256 ≤ r1 + carry_in)
  ((((((p.set_z (decide (result = 0))).set_n
      (decide (0 < result &&& SIGN_BIT))).set_carry
      (c1 || c2)).update_v lhs operand result).set_a
      result).update_pc (opcode_len mode)).update_cycles 2

def Processor.bcc (p : Processor) (mode : Mode) : Processor :=
  let p1 :=
    if p.state.status &&& C_FLAG = 0 then
      let r := p.lookup mode
      r.1.jump r.2
    else p.update_pc (opcode_len mode)
  p1.update_cycles 2

def Processor.bcs (p : Processor) (mode : Mode) : Processor :=
  let p1 :=
    if p.state.status &&& C_FLAG ≠ 0 then
      let r := p.lookup mode
      r.1.jump r.2
    else p.update_pc (opcode_len mode)
  p1.update_cycles 2

def Processor.beq (p : Processor) (mode : Mode) : Processor :=
  let p1 :=
    if p.state.status &&& Z_FLAG ≠ 0 then
      let r := p.lookup mode
      r.1.jump r.2
    else p.update_pc (opcode_len mode)
  p1.update_cycles 2

def Processor.bne (p : Processor) (mode : Mode) : Processor :=
  let p1 :=
    if p.state.status &&& Z_FLAG = 0 then
      let r := p.lookup mode
      r.1.jump r.2
    else p.update_pc (opcode_len mode)
  p1.update_cycles 2

def Processor.bmi (p : Processor) (mode : Mode) : Processor :=
  let p1 :=
    if p.state.status &&& N_FLAG ≠ 0 then
      let r := p.lookup mode
      r.1.jump r.2
    else p.update_pc (opcode_len mode)
  p1.update_cycles 2

def Processor.bpl (p : Processor) (mode : Mode) : Processor :=
  let p1 :=
    if p.state.status &&& N_FLAG = 0 then
      let r := p.lookup mode
      r.1.jump r.2
    else p.update_pc (opcode_len mode)
  p1.update_cycles 2

def Processor.bvc (p : Processor) (mode : Mode) : Processor :=
  let p1 :=
    if p.state.status &&& V_FLAG = 0 then
      let r := p.lookup mode
      r.1.jump r.2
    else p.update_pc (opcode_len mode)
  p1.update_cycles 2

def Processor.bvs (p : Processor) (mode : Mode) : Processor :=
  let p1 :=
    if p.state.status &&& V_FLAG = V_FLAG then
      let r := p.lookup mode
      r.1.jump r.2
    else p.update_pc (opcode_len mode)
  p1.update_cycles 2

/-- `Processor::jsr`: resolve the target, push `PC + 2` low byte then
high byte (each truncated to `u8`), jump, charge 4 cycles. -/
def Processor.jsr (p : Processor) (mode : Mode) : Processor :=
  let r := p.lookup mode
  let p := r.1
  let new_pc := p.state.pc + 2
  let pch := (new_pc >>> 8) % 256
  let pcl := new_pc &&& 0xff
  let p := p.stack_push pcl
  let p := p.stack_push pch
  (p.jump r.2).update_cycles 4

/-- `Processor::rts`: pop two bytes, reconstruct PC, add 6 cycles and
increment PC by 1. -/
def Processor.rts (p : Processor) : Processor :=
  let r1 := p.stack_pop
  let pch := r1.2
  let r2 := r1.1.stack_pop
  let pcl := r2.2
  let new_pc := pcl ||| (pch <<< 8)
  ((r2.1.jump new_pc).update_cycles 6).update_pc 1

/-- `Processor::rti`: pop status masked with `(!F_FLAG | !B_FLAG)` —
note that this mask evaluates to `0xFF` — then pop two PC bytes and
jump. -/
def Processor.rti (p : Processor) : Processor :=
  let r1 := p.stack_pop
  let status := r1.2 &&& ((0xFF ^^^ F_FLAG) ||| (0xFF ^^^ B_FLAG))
  let r2 := r1.1.stack_pop
  let pch := r2.2
  let r3 := r2.1.stack_pop
  let pcl := r3.2
  let new_pc := pcl ||| (pch <<< 8)
  let p := { r3.1 with state := { r3.1.state with status := status } }
  (p.jump new_pc).update_cycles 6

/-! ### Helper lemmas -/

/-- Setting a bit already masked: `(s &&& f) ||| f = f`. -/
theorem Nat.and_or_self_eq (s f : Nat) : (s &&& f) ||| f = f := by
  apply Nat.eq_of_testBit_eq
  intro i
  simp only [Nat.testBit_or, Nat.testBit_and]
  cases s.testBit i <;> cases f.testBit i <;> rfl

theorem lookup_state (p : Processor) (mode : Mode) :
    (p.lookup mode).1.state = p.state := by
  cases mode <;>
    (simp only [Processor.lookup, Processor.update_cycles]
     repeat' split) <;> rfl

theorem lookup_mem (p : Processor) (mode : Mode) :
    (p.lookup mode).1.mem = p.mem := by
  cases mode <;>
    (simp only [Processor.lookup, Processor.update_cycles]
     repeat' split) <;> rfl

/-! ### Claim theorems -/

/-- Claim C3: reads below 0x2000 are mirrored into the 2KB window
(`read(a) = read(a % 0x800)` for any memory, hence after any write/load
history), while `write` stores only at the literal cell, leaving every
other cell unchanged. -/
theorem memory_mirror_spec (m : Memory) (a b v : Nat)
    (h : a < 0x2000) (hb : b ≠ a) :
    m.read a = m.read (a % 0x800)
    ∧ (m.write a v).ram a = v
    ∧ (m.write a v).ram b = m.ram b := by
  refine ⟨?_, by simp [Memory.write], by simp [Memory.write, hb]⟩
  unfold Memory.read MIRROR_TOP RAM_TOP
  rw [if_pos h, if_pos (by omega : a % 0x800 < 0x2000)]
  congr 1
  omega

/-- Witness for C3 at `a = 0x1805`, `b = 0`, `v = 77`. -/
theorem memory_mirror_spec_witness :
    (Memory.new.write 5 77).read 0x1805 = (Memory.new.write 5 77).read (0x1805 % 0x800)
    ∧ ((Memory.new.write 5 77).write 0x1805 9).ram 0x1805 = 9
    ∧ ((Memory.new.write 5 77).write 0x1805 9).ram 0 = (Memory.new.write 5 77).ram 0 :=
  memory_mirror_spec (Memory.new.write 5 77) 0x1805 0 9 (by decide) (by decide)

/-- Claim C9: `Absolute` resolution reads the byte right after the
opcode as the HIGH address byte and the next byte as the LOW byte,
charging 2 cycles and mutating nothing else. -/
theorem absolute_mode_spec (p : Processor) :
    (p.lookup Mode.absolute).2
      = p.mem.read (p.state.pc + 2) ||| (p.mem.read (p.state.pc + 1) <<< 8)
    ∧ (p.lookup Mode.absolute).1.mem = p.mem
    ∧ (p.lookup Mode.absolute).1.state = p.state
    ∧ (p.lookup Mode.absolute).1.cycles = p.cycles + 2 :=
  ⟨rfl, rfl, rfl, rfl⟩

/-- Claim C8 counterexample: after `Processor::new` and `reset()` the
stack pointer is 0, not 0xFF — nothing in `reset` (or anywhere else)
sets SP to 0xFF. -/
theorem reset_sp_counterexample :
    ¬ (Processor.new.reset.state.sp = 0xFF) := by decide

/-- Claim C8 (amended): `reset()` loads PC little-endian from the reset
vector at 0xFFFC/0xFFFD and leaves SP unchanged (0 after
`Processor::new`). -/
theorem reset_spec (p : Processor) :
    p.reset.state.pc = p.mem.read 0xFFFC ||| (p.mem.read 0xFFFD <<< 8)
    ∧ p.reset.state.sp = p.state.sp
    ∧ Processor.new.state.sp = 0 :=
  ⟨rfl, rfl, rfl⟩

/-- Claim C10: `AbsoluteX`/`AbsoluteY`/`IndexedY` resolution adds the
current Carry flag bit (`status & 1`) into the address sum, and the
page-cross penalty cycle is charged exactly when the high byte of the
resulting address is strictly greater than the base high byte. -/
theorem indexed_carry_modes_spec (p : Processor) :
    let carry := p.state.status &&& 1
    let high := p.mem.read (p.state.pc + 1)
    let low := p.mem.read (p.state.pc + 2)
    let addrX := (low ||| (high <<< 8)) + carry + p.state.x
    let addrY := (low ||| (high <<< 8)) + carry + p.state.y
    let base := p.mem.read (p.state.pc + 1)
    let highI := p.mem.read base
    let lowI := p.mem.read (base + 1)
    let addrI := (lowI ||| (highI <<< 8)) + carry + p.state.y
    (p.lookup Mode.absoluteX).2 = addrX
    ∧ (p.lookup Mode.absoluteX).1.cycles
        = p.cycles + 2 + (if addrX >>> 8 > high then 1 else 0)
    ∧ (p.lookup Mode.absoluteY).2 = addrY
    ∧ (p.lookup Mode.absoluteY).1.cycles
        = p.cycles + 2 + (if addrY >>> 8 > high then 1 else 0)
    ∧ (p.lookup Mode.indexedY).2 = addrI
    ∧ (p.lookup Mode.indexedY).1.cycles
        = p.cycles + 3 + (if addrI >>> 8 > highI then 1 else 0)
    ∧ (p.lookup Mode.absoluteX).1.mem = p.mem
    ∧ (p.lookup Mode.absoluteX).1.state = p.state := by
  refine ⟨rfl, ?_, rfl, ?_, rfl, ?_, lookup_mem p _, lookup_state p _⟩ <;>
    (simp only [Processor.lookup, Processor.update_cycles]
     split <;> simp)

/-- The 22 opcode bytes on which `Processor::decode` hits an explicit
`panic!` arm instead of returning a handler. -/
def decode_panic_bytes : List Nat :=
  [0x04, 0x0C, 0x12, 0x1A, 0x32, 0x3A, 0x44, 0x52, 0x5A, 0x64, 0x72,
   0x7A, 0x82, 0x92, 0xB2, 0xC2, 0xCB, 0xD2, 0xDA, 0xE2, 0xF2, 0xFA]

/-- The 75 opcode bytes that decode to the fatal `jam` handler. -/
def decode_jam_bytes : List Nat :=
  [2, 3, 7, 11, 15, 19, 20, 23, 27, 28, 31, 34, 35, 39, 43, 47, 51,
   52, 55, 59, 60, 63, 66, 67, 71, 75, 79, 83, 84, 87, 91, 92, 95,
   98, 99, 103, 107, 111, 115, 116, 119, 123, 124, 127, 128, 131,
   135, 139, 143, 147, 151, 155, 156, 159, 163, 167, 171, 175, 179,
   183, 187, 188, 191, 212, 220, 227, 231, 235, 239, 243, 244, 247,
   251, 252, 255]

/-- Claim C2 counterexample: byte 0x04 (bit-fields c=0, b=1, a=0) hits
the `panic!` arm of `decode` — the Rust decoder fails on it instead of
returning a `(handler, mode)` pair. -/
theorem decode_0x04_panics : decode 0x04 = none := by decide

set_option maxHeartbeats 1000000 in
set_option maxRecDepth 20000 in
/-- Claim C2 (amended): `decode` is total except on the 22 bytes that
hit explicit `panic!` arms; the bytes resolving to the fatal `jam`
handler are exactly `decode_jam_bytes`; and the NOP-equivalent slot
(c=2, b=2, a=7), byte 0xEA, decodes to `nop`. -/
theorem decode_totality_amended :
    (∀ v : Fin 256, (decode v.val = none ↔ v.val ∈ decode_panic_bytes))
    ∧ (∀ v : Fin 256,
        (decode v.val = some (Instr.jam, Mode.implied) ↔ v.val ∈ decode_jam_bytes))
    ∧ decode 0xEA = some (Instr.nop, Mode.implied) := by decide

/-- Claim C5: `stack_push(v)` writes `v` at `0x0100 + SP` then
decrements SP with wraparound; `stack_pop()` increments SP with
wraparound first, then reads at the new `0x0100 + SP`; a pop right
after a push returns the pushed value and restores SP. -/
theorem stack_push_pop_spec (p : Processor) (v : Nat) (h : p.state.sp < 256) :
    (p.stack_push v).mem.ram (0x100 + p.state.sp) = v
    ∧ (p.stack_push v).state.sp
        = (if p.state.sp = 0 then 0xff else p.state.sp - 1)
    ∧ p.stack_pop.1.state.sp
        = (if p.state.sp = 0xff then 0 else p.state.sp + 1)
    ∧ p.stack_pop.2 = p.mem.read (0x100 + p.stack_pop.1.state.sp)
    ∧ ((p.stack_push v).stack_pop).2 = v
    ∧ ((p.stack_push v).stack_pop).1.state.sp = p.state.sp := by
  refine ⟨by simp [Processor.stack_push, Processor.stack_top, Memory.write,
                   ZERO_PAGE_TOP], rfl, rfl, rfl, ?_, ?_⟩ <;>
    (unfold Processor.stack_push Processor.stack_pop Processor.stack_top
       Memory.write Memory.read ZERO_PAGE_TOP MIRROR_TOP RAM_TOP
     by_cases h0 : p.state.sp = 0)
  · simp [h0]
  · have hne : p.state.sp - 1 ≠ 255 := by omega
    have hs1 : p.state.sp - 1 + 1 = p.state.sp := by omega
    simp only [h0, hne, hs1, if_neg, ite_false]
    simp [hs1, show 0x100 + p.state.sp < 0x2000 by omega,
          Nat.mod_eq_of_lt (show 0x100 + p.state.sp < 0x800 by omega)]
  · simp [h0]
  · have hne : p.state.sp - 1 ≠ 255 := by omega
    have hs1 : p.state.sp - 1 + 1 = p.state.sp := by omega
    simp [h0, hne, hs1]

/-- Concrete processor used to evaluate the `rti` handler: SP = 0xFC,
stack bytes 0x1FD = 0xFF (status), 0x1FE = 0x12, 0x1FF = 0x34. -/
def rti_demo : Processor :=
  { mem := ((Memory.new.write 0x1FD 0xFF).write 0x1FE 0x12).write 0x1FF 0x34
    state := { a := 0, sp := 0xFC, pc := 0, x := 0, y := 0, status := 0 }
    cycles := 0 }

/-- Claim C7 evaluation: the popped status byte 0xFF is installed
UNCHANGED — the mask `(!F_FLAG | !B_FLAG)` is `0xDF ||| 0xEF = 0xFF`,
so neither the B flag (bit 4) nor bit 5 is cleared, contradicting the
claim (and the source's own comment, which says both should be
ignored).  The reconstructed PC is 0x1234: the byte at the lower stack
address (popped second, 0x12) lands in the HIGH half of PC. -/
theorem rti_mask_bug :
    rti_demo.rti.state.status = 0xFF ∧ rti_demo.rti.state.pc = 0x1234 := by
  constructor <;> rfl

/-- Concrete processor for the ADC signed-overflow test: A = 0x50,
operand byte 0x50 at PC+1 (immediate mode), carry-in 0. -/
def adc_demo : Processor :=
  { mem := Memory.new.write 1 0x50
    state := { a := 0x50, sp := 0, pc := 0, x := 0, y := 0, status := 0 }
    cycles := 0 }

theorem flag_sets_preserve_a (q : Processor) (z n cr : Bool) (l r res : Nat) :
    ((((q.set_z z).set_n n).set_carry cr).update_v l r res).state.a
      = q.state.a := by
  unfold Processor.set_z Processor.set_n Processor.set_carry Processor.update_v
  cases z <;> cases n <;> cases cr <;> dsimp only <;> split <;> rfl

theorem adc_status_bits (q : Processor) (z n cr : Bool) (l r res : Nat) :
    (((((q.set_z z).set_n n).set_carry cr).update_v l r res).state.status &&& C_FLAG
        = (if cr then C_FLAG else 0))
    ∧ (((((q.set_z z).set_n n).set_carry cr).update_v l r res).state.status &&& Z_FLAG
        = (if z then Z_FLAG else 0))
    ∧ (((((q.set_z z).set_n n).set_carry cr).update_v l r res).state.status &&& N_FLAG
        = (if n then N_FLAG else 0))
    ∧ (((((q.set_z z).set_n n).set_carry cr).update_v l r res).state.status &&& V_FLAG
        = (if ((l ^^^ r) ^^^ 0xFF) &&& (l ^^^ res) &&& SIGN_BIT ≠ 0
           then V_FLAG else 0)) := by
  unfold Processor.set_z Processor.set_n Processor.set_carry Processor.update_v
  cases z <;> cases n <;> cases cr <;>
    (simp only [C_FLAG, Z_FLAG, V_FLAG, N_FLAG, SIGN_BIT,
       Bool.false_eq_true, if_false, if_pos]
     split <;>
       simp only [Nat.and_distrib_right, Nat.and_assoc, Nat.or_zero,
         Nat.zero_or, Nat.and_zero, Nat.and_or_self_eq,
         show ((1:Nat) &&& 1) = 1 from by decide,
         show ((2:Nat) &&& 1) = 0 from by decide,
         show ((128:Nat) &&& 1) = 0 from by decide,
         show ((64:Nat) &&& 1) = 0 from by decide,
         show ((255 ^^^ 1 : Nat) &&& 1) = 0 from by decide,
         show ((255 ^^^ 2 : Nat) &&& 1) = 1 from by decide,
         show ((255 ^^^ 128 : Nat) &&& 1) = 1 from by decide,
         show ((255 ^^^ 64 : Nat) &&& 1) = 1 from by decide,
         show ((1:Nat) &&& 2) = 0 from by decide,
         show ((2:Nat) &&& 2) = 2 from by decide,
         show ((128:Nat) &&& 2) = 0 from by decide,
         show ((64:Nat) &&& 2) = 0 from by decide,
         show ((255 ^^^ 1 : Nat) &&& 2) = 2 from by decide,
         show ((255 ^^^ 2 : Nat) &&& 2) = 0 from by decide,
         show ((255 ^^^ 128 : Nat) &&& 2) = 2 from by decide,
         show ((255 ^^^ 64 : Nat) &&& 2) = 2 from by decide,
         show ((1:Nat) &&& 128) = 0 from by decide,
         show ((2:Nat) &&& 128) = 0 from by decide,
         show ((128:Nat) &&& 128) = 128 from by decide,
         show ((64:Nat) &&& 128) = 0 from by decide,
         show ((255 ^^^ 1 : Nat) &&& 128) = 128 from by decide,
         show ((255 ^^^ 2 : Nat) &&& 128) = 128 from by decide,
         show ((255 ^^^ 128 : Nat) &&& 128) = 0 from by decide,
         show ((255 ^^^ 64 : Nat) &&& 128) = 128 from by decide,
         show ((1:Nat) &&& 64) = 0 from by decide,
         show ((2:Nat) &&& 64) = 0 from by decide,
         show ((128:Nat) &&& 64) = 0 from by decide,
         show ((64:Nat) &&& 64) = 64 from by decide,
         show ((255 ^^^ 1 : Nat) &&& 64) = 64 from by decide,
         show ((255 ^^^ 2 : Nat) &&& 64) = 64 from by decide,
         show ((255 ^^^ 128 : Nat) &&& 64) = 64 from by decide,
         show ((255 ^^^ 64 : Nat) &&& 64) = 0 from by decide] <;>
     exact ⟨trivial, trivial, trivial, trivial⟩)

/-- Claim C1: `adc` computes its result via two chained 8-bit additions
(`A + operand`, then `+ carry-in`) with explicit carry-out capture,
sets Carry to the OR of the two carry-outs (equivalently: the 9-bit
carry of the full sum), Overflow by the `!(A ^ op) & (A ^ res) & 0x80`
formula, Z iff the result is zero, N iff bit 7 of the result is set,
and stores the result in A; in particular `A=0x50`, operand `0x50`,
carry-in 0 gives `0xA0` with `N=1, V=1, C=0, Z=0` (status `0xC0`). -/
theorem adc_spec (p : Processor) (mode : Mode) :
    (p.adc mode).state.a
      = ((p.state.a + p.mem.read (p.lookup mode).2) % 256
          + (p.state.status &&& 1)) % 256
    ∧ ((p.state.a + p.mem.read (p.lookup mode).2) % 256
          + (p.state.status &&& 1)) % 256
        = (p.state.a + p.mem.read (p.lookup mode).2
            + (p.state.status &&& 1)) % 256
    ∧ ((p.adc mode).state.status &&& C_FLAG
        = if 256 ≤ p.state.a + p.mem.read (p.lookup mode).2
             ∨ 256 ≤ (p.state.a + p.mem.read (p.lookup mode).2) % 256
                 + (p.state.status &&& 1)
          then C_FLAG else 0)
    ∧ ((256 ≤ p.state.a + p.mem.read (p.lookup mode).2
         ∨ 256 ≤ (p.state.a + p.mem.read (p.lookup mode).2) % 256
             + (p.state.status &&& 1))
        ↔ 256 ≤ p.state.a + p.mem.read (p.lookup mode).2
            + (p.state.status &&& 1))
    ∧ ((p.adc mode).state.status &&& Z_FLAG
        = if ((p.state.a + p.mem.read (p.lookup mode).2) % 256
              + (p.state.status &&& 1)) % 256 = 0
          then Z_FLAG else 0)
    ∧ ((p.adc mode).state.status &&& N_FLAG
        = if 0 < (((p.state.a + p.mem.read (p.lookup mode).2) % 256
              + (p.state.status &&& 1)) % 256) &&& SIGN_BIT
          then N_FLAG else 0)
    ∧ ((p.adc mode).state.status &&& V_FLAG
        = if ((p.state.a ^^^ p.mem.read (p.lookup mode).2) ^^^ 0xFF)
               &&& (p.state.a
                     ^^^ ((p.state.a + p.mem.read (p.lookup mode).2) % 256
                           + (p.state.status &&& 1)) % 256)
               &&& SIGN_BIT ≠ 0
          then V_FLAG else 0)
    ∧ (adc_demo.adc Mode.immediate).state.a = 0xA0
    ∧ (adc_demo.adc Mode.immediate).state.status = 0xC0 := by
  have hm := lookup_mem p mode
  have hs := lookup_state p mode
  simp only [Processor.adc, Processor.set_a, Processor.update_pc,
    Processor.update_cycles]
  rw [hm, hs]
  obtain ⟨hC, hZ, hN, hV⟩ := adc_status_bits (p.lookup mode).1
    (decide (((p.state.a + p.mem.read (p.lookup mode).2) % 256
        + (p.state.status &&& 1)) % 256 = 0))
    (decide (0 < (((p.state.a + p.mem.read (p.lookup mode).2) % 256
        + (p.state.status &&& 1)) % 256) &&& SIGN_BIT))
    (decide (256 ≤ p.state.a + p.mem.read (p.lookup mode).2)
      || decide (256 ≤ (p.state.a + p.mem.read (p.lookup mode).2) % 256
          + (p.state.status &&& 1)))
    p.state.a (p.mem.read (p.lookup mode).2)
    ((((p.state.a + p.mem.read (p.lookup mode).2) % 256
        + (p.state.status &&& 1)) % 256))
  refine ⟨rfl, by omega, ?_, by omega, ?_, ?_, ?_, by decide, by decide⟩
  · rw [hC]
    simp only [Bool.or_eq_true, decide_eq_true_eq]
  · rw [hZ]
    simp only [decide_eq_true_eq]
  · rw [hN]
    simp only [decide_eq_true_eq]
  · rw [hV]

theorem lookup_relative_cycles (p : Processor) :
    (p.lookup Mode.relative).1.cycles
      = p.cycles + 1
        + (if (p.lookup Mode.relative).2 >>> 8 > p.state.pc >>> 8
           then 1 else 0) := by
  simp only [Processor.lookup, Processor.update_cycles]
  repeat' split
  all_goals simp_all

theorem branch_eval (p : Processor) (cond : Prop) [Decidable cond] :
    ((if cond then
        (p.lookup Mode.relative).1.jump (p.lookup Mode.relative).2
      else p.update_pc (opcode_len Mode.relative)).update_cycles 2).state.pc
      = (if cond then (p.lookup Mode.relative).2 else p.state.pc + 2)
    ∧ ((if cond then
          (p.lookup Mode.relative).1.jump (p.lookup Mode.relative).2
        else p.update_pc (opcode_len Mode.relative)).update_cycles 2).cycles
      = (if cond then
           p.cycles + 3
             + (if (p.lookup Mode.relative).2 >>> 8 > p.state.pc >>> 8
                then 1 else 0)
         else p.cycles + 2) := by
  by_cases hc : cond
  · refine ⟨by simp [hc, Processor.jump, Processor.update_cycles], ?_⟩
    simp [hc, Processor.jump, Processor.update_cycles, lookup_relative_cycles]
    omega
  · exact ⟨by simp [hc, Processor.update_pc, Processor.update_cycles,
        opcode_len], by simp [hc, Processor.update_cycles, Processor.update_pc]⟩

/-- Claim C6: each of the eight conditional branch handlers leaves PC
at the resolved relative target and charges 2 + 1 + (1 on page cross)
cycles when its flag test passes, and otherwise advances PC by the
2-byte Relative `opcode_len` and charges exactly 2 cycles (the
resolver — and its page-cross penalty — is not paid). -/
theorem branch_handlers_spec (p : Processor) :
    ((p.bcc Mode.relative).state.pc
      = (if p.state.status &&& C_FLAG = 0 then (p.lookup Mode.relative).2
         else p.state.pc + 2))
    ∧ ((p.bcc Mode.relative).cycles
      = (if p.state.status &&& C_FLAG = 0 then
           p.cycles + 3
             + (if (p.lookup Mode.relative).2 >>> 8 > p.state.pc >>> 8
                then 1 else 0)
         else p.cycles + 2))
    ∧ ((p.bcs Mode.relative).state.pc
      = (if p.state.status &&& C_FLAG ≠ 0 then (p.lookup Mode.relative).2
         else p.state.pc + 2))
    ∧ ((p.bcs Mode.relative).cycles
      = (if p.state.status &&& C_FLAG ≠ 0 then
           p.cycles + 3
             + (if (p.lookup Mode.relative).2 >>> 8 > p.state.pc >>> 8
                then 1 else 0)
         else p.cycles + 2))
    ∧ ((p.beq Mode.relative).state.pc
      = (if p.state.status &&& Z_FLAG ≠ 0 then (p.lookup Mode.relative).2
         else p.state.pc + 2))
    ∧ ((p.beq Mode.relative).cycles
      = (if p.state.status &&& Z_FLAG ≠ 0 then
           p.cycles + 3
             + (if (p.lookup Mode.relative).2 >>> 8 > p.state.pc >>> 8
                then 1 else 0)
         else p.cycles + 2))
    ∧ ((p.bne Mode.relative).state.pc
      = (if p.state.status &&& Z_FLAG = 0 then (p.lookup Mode.relative).2
         else p.state.pc + 2))
    ∧ ((p.bne Mode.relative).cycles
      = (if p.state.status &&& Z_FLAG = 0 then
           p.cycles + 3
             + (if (p.lookup Mode.relative).2 >>> 8 > p.state.pc >>> 8
                then 1 else 0)
         else p.cycles + 2))
    ∧ ((p.bmi Mode.relative).state.pc
      = (if p.state.status &&& N_FLAG ≠ 0 then (p.lookup Mode.relative).2
         else p.state.pc + 2))
    ∧ ((p.bmi Mode.relative).cycles
      = (if p.state.status &&& N_FLAG ≠ 0 then
           p.cycles + 3
             + (if (p.lookup Mode.relative).2 >>> 8 > p.state.pc >>> 8
                then 1 else 0)
         else p.cycles + 2))
    ∧ ((p.bpl Mode.relative).state.pc
      = (if p.state.status &&& N_FLAG = 0 then (p.lookup Mode.relative).2
         else p.state.pc + 2))
    ∧ ((p.bpl Mode.relative).cycles
      = (if p.state.status &&& N_FLAG = 0 then
           p.cycles + 3
             + (if (p.lookup Mode.relative).2 >>> 8 > p.state.pc >>> 8
                then 1 else 0)
         else p.cycles + 2))
    ∧ ((p.bvc Mode.relative).state.pc
      = (if p.state.status &&& V_FLAG = 0 then (p.lookup Mode.relative).2
         else p.state.pc + 2))
    ∧ ((p.bvc Mode.relative).cycles
      = (if p.state.status &&& V_FLAG = 0 then
           p.cycles + 3
             + (if (p.lookup Mode.relative).2 >>> 8 > p.state.pc >>> 8
                then 1 else 0)
         else p.cycles + 2))
    ∧ ((p.bvs Mode.relative).state.pc
      = (if p.state.status &&& V_FLAG = V_FLAG then (p.lookup Mode.relative).2
         else p.state.pc + 2))
    ∧ ((p.bvs Mode.relative).cycles
      = (if p.state.status &&& V_FLAG = V_FLAG then
           p.cycles + 3
             + (if (p.lookup Mode.relative).2 >>> 8 > p.state.pc >>> 8
                then 1 else 0)
         else p.cycles + 2)) :=
  ⟨(branch_eval p _).1, (branch_eval p _).2,
   (branch_eval p _).1, (branch_eval p _).2,
   (branch_eval p _).1, (branch_eval p _).2,
   (branch_eval p _).1, (branch_eval p _).2,
   (branch_eval p _).1, (branch_eval p _).2,
   (branch_eval p _).1, (branch_eval p _).2,
   (branch_eval p _).1, (branch_eval p _).2,
   (branch_eval p _).1, (branch_eval p _).2⟩

theorem byte_pair_reconstruct (n : Nat) (hn : n < 65536) :
    (n &&& 0xff) ||| (((n >>> 8) % 256) <<< 8) = n := by
  have h1 : n &&& 255 = n % 256 := by
    have h := Nat.and_pow_two_sub_one_eq_mod n 8
    norm_num at h
    exact h
  have h2 : n >>> 8 = n / 256 := by
    rw [Nat.shiftRight_eq_div_pow]
  have h3 : n / 256 % 256 = n / 256 := Nat.mod_eq_of_lt (by omega)
  rw [h1, h2, h3, Nat.shiftLeft_eq, Nat.lor_comm,
    show n / 256 * 2 ^ 8 = 2 ^ 8 * (n / 256) from by ring,
    ← Nat.mul_add_lt_is_or (show n % 256 < 2 ^ 8 from by omega) (n / 256)]
  omega

/-- Claim C4: executing the 3-byte `JSR` at address `p` and then `RTS`
at the same stack depth leaves PC at `p + 3` — `JSR` pushes `PC + 2`
and `RTS` reconstructs it and increments by 1. -/
theorem jsr_rts_roundtrip (p : Processor) (h1 : p.state.sp < 256)
    (h2 : p.state.pc + 2 < 65536) :
    ((p.jsr Mode.absolute).rts).state.pc = p.state.pc + 3 := by
  have key := byte_pair_reconstruct (p.state.pc + 2) h2
  unfold Processor.jsr Processor.rts Processor.lookup Processor.stack_push
    Processor.stack_pop Processor.stack_top Processor.update_cycles
    Processor.update_pc Processor.jump Memory.write Memory.read
    ZERO_PAGE_TOP MIRROR_TOP RAM_TOP
  dsimp only
  by_cases hz : p.state.sp = 0
  · simp [hz]
    omega
  · by_cases ho : p.state.sp = 1
    · simp [ho]
      omega
    · have e1 : p.state.sp - 1 ≠ 0 := by omega
      have e2 : p.state.sp - 1 - 1 ≠ 255 := by omega
      have e3 : p.state.sp - 1 - 1 + 1 = p.state.sp - 1 := by omega
      have e4 : p.state.sp - 1 ≠ 255 := by omega
      have e5 : p.state.sp - 1 + 1 = p.state.sp := by omega
      have e6 : (256 + (p.state.sp - 1)) % 2048 = 256 + (p.state.sp - 1) :=
        Nat.mod_eq_of_lt (by omega)
      have e7 : (256 + p.state.sp) % 2048 = 256 + p.state.sp :=
        Nat.mod_eq_of_lt (by omega)
      have e8 : ¬ (256 + p.state.sp = 256 + (p.state.sp - 1)) := by omega
      simp [hz, ho, e1, e2, e3, e4, e5, e6, e7, e8,
        show 256 + (p.state.sp - 1) < 8192 from by omega,
        show 256 + p.state.sp < 8192 from by omega]
      omega

/-- Concrete processor with SP = 5 for the stack witness. -/
def stack_demo : Processor :=
  { mem := Memory.new
    state := { a := 0, sp := 5, pc := 0, x := 0, y := 0, status := 0 }
    cycles := 0 }

/-- Witness for C5 at SP = 5, value 7. -/
theorem stack_push_pop_spec_witness :
    stack_demo.state.sp < 256
    ∧ ((stack_demo.stack_push 7).mem.ram (0x100 + stack_demo.state.sp) = 7
       ∧ (stack_demo.stack_push 7).state.sp
           = (if stack_demo.state.sp = 0 then 0xff else stack_demo.state.sp - 1)
       ∧ stack_demo.stack_pop.1.state.sp
           = (if stack_demo.state.sp = 0xff then 0 else stack_demo.state.sp + 1)
       ∧ stack_demo.stack_pop.2
           = stack_demo.mem.read (0x100 + stack_demo.stack_pop.1.state.sp)
       ∧ ((stack_demo.stack_push 7).stack_pop).2 = 7
       ∧ ((stack_demo.stack_push 7).stack_pop).1.state.sp
           = stack_demo.state.sp) :=
  ⟨by decide, stack_push_pop_spec stack_demo 7 (by decide)⟩

/-- Concrete processor with SP = 0xFF and PC = 0x8000 for the JSR/RTS
witness. -/
def jsr_demo : Processor :=
  { mem := Memory.new
    state := { a := 0, sp := 0xFF, pc := 0x8000, x := 0, y := 0, status := 0 }
    cycles := 0 }

/-- Witness for C4 at SP = 0xFF, PC = 0x8000. -/
theorem jsr_rts_roundtrip_witness :
    jsr_demo.state.sp < 256 ∧ jsr_demo.state.pc + 2 < 65536
    ∧ ((jsr_demo.jsr Mode.absolute).rts).state.pc = jsr_demo.state.pc + 3 :=
  ⟨by decide, by decide, jsr_rts_roundtrip jsr_demo (by decide) (by decide)⟩
